import Mathlib

/-!
Shallow embedding of the SHARK-Engine wave-kernel lowering engine
(`core/shark_turbine/kernel/functional/codegen.py`), the `WaveEmitter`
class and its registered op handlers (`read`, `write`, `mma`, and the
generic python-call passthrough).

Modelling conventions:
* `fx.Node` becomes `Node`, identified by a stable `id : Nat`; the binding table of the emitter `_node_values` (a python dict keyed on node identity) becomes
  an association list keyed on the node id.
* Emitted MLIR operations (`arith.constant`, `vector.transfer_read`,
  `vector.broadcast`, `vector.transfer_write`, `vector.contract`) become
  entries appended to an instruction trace in the emitter state; result SSA
  values are allocated from a fresh-id counter.
* Python exceptions (`CodegenError`, `ValidationError`, a failing `assert`)
  become an `Err` value.  A raised exception does not roll mutations back, so
  a failing operation returns `Except.error (e, s)` carrying the state at the
  raise point.
* The helpers imported from `compiler.vector_codegen` and `compiler.builder`
  (`cast_py_literal`, `cast_kernel_buffer`, `cast_vector`,
  `ScalarBuilder.zero_attr`) and the bound-signature method
  `resolve_by_reference` are not part of the visible sources; they are
  modelled from the spec and say so in their doc comments.
-/

namespace WaveCodegen

/-- MLIR-style IR types used by the lowering: 32-bit float scalars, the
`index` type, vectors and memrefs of a static shape over an element type. -/
inductive IrType where
  | f32 : IrType
  | index : IrType
  | vector (shape : List Nat) (elem : IrType) : IrType
  | memref (shape : List Nat) (elem : IrType) : IrType
deriving DecidableEq, Repr

/-- Rank of a shaped type (`ShapedType.rank` / `VectorType.rank`). -/
def IrType.rank : IrType → Nat
  | .vector shape _ => shape.length
  | .memref shape _ => shape.length
  | _ => 0

/-- Constant attributes: an integer index attribute, or the zero attribute of
an element type (what `ScalarBuilder.zero_attr` produces). -/
inductive Attr where
  | idx (n : Nat) : Attr
  | zeroOf (t : IrType) : Attr
deriving DecidableEq, Repr

/-- An affine map with `numDims` input dimensions whose results are dimension
expressions (each a dimension index), enough for the maps this lowering
builds (`AffineMap.get` over dim exprs and `AffineMap.get_minor_identity`). -/
structure AffineMap where
  numDims : Nat
  results : List Nat
deriving DecidableEq, Repr

/-- `AffineMap.get_minor_identity(dims, results)`: the map with `dims` inputs
whose results are the `results` minor (trailing) dimensions, in order. -/
def AffineMap.get_minor_identity (dims results : Nat) : AffineMap :=
  { numDims := dims, results := (List.range results).map (fun i => dims - results + i) }

/-- `AffineMap.get(dims, syms, exprs)` restricted to symbol-free dim-expr
results, which is the only form the mma handler uses. -/
def AffineMap.get (dims : Nat) (_syms : Nat) (exprs : List Nat) : AffineMap :=
  { numDims := dims, results := exprs }

/-- The `#vector.iterator_type<...>` attributes parsed by the mma handler. -/
inductive IteratorType where
  | parallel : IteratorType
  | reduction : IteratorType
deriving DecidableEq, Repr

/-- A low-level SSA value: a fresh id, its IR type, and — when the value was
produced by `arith.constant` — the constant attribute it holds, so that
claims about all-zero start offsets and zero pad values are expressible. -/
structure Value where
  id : Nat
  type : IrType
  const : Option Attr := none
deriving DecidableEq, Repr

/-- `IRProxyValue` in the python source is a transparent wrapper holding one
IR `Value`; the binding table stores values through it.  The wrapper adds no
observable structure, so the embedding identifies the two. -/
abbrev IRProxyValue := Value

/-- One emitted instruction, in program order.  Result-producing ops record
the id of the value they define. -/
inductive Instr where
  | constant (t : IrType) (a : Attr) (resId : Nat) : Instr
  | transfer_read (vecType : IrType) (source : Value) (indices : List Value)
      (map : AffineMap) (pad : Value) (resId : Nat) : Instr
  | broadcast (t : IrType) (src : Value) (resId : Nat) : Instr
  | transfer_write (vec : Value) (dest : Value) (indices : List Value)
      (map : AffineMap) : Instr
  | contraction (resType : IrType) (lhs rhs acc : Value) (maps : List AffineMap)
      (iters : List IteratorType) (resId : Nat) : Instr
deriving DecidableEq, Repr

/-- The operation-kind identifier of a call node (`node.target`).  The four
registered kinds are listed; `other name` stands for any target with no
registry entry, carrying the name its python repr would print. -/
inductive OpKind where
  | read : OpKind
  | write : OpKind
  | mma : OpKind
  | pycall : OpKind
  | other (name : String) : OpKind
deriving DecidableEq, Repr

/-- Printable name of an op kind, as the f-string in
`emit_function_call_node` would render `target_op`. -/
def OpKind.name : OpKind → String
  | .read => "read"
  | .write => "write"
  | .mma => "mma"
  | .pycall => "_operator.call"
  | .other s => s

/-- A node argument: a reference to another node (by id) or a python literal
(the `elements_per_thread` hints are literals). -/
inductive Arg where
  | nodeRef (id : Nat) : Arg
  | lit (v : Nat) : Arg
deriving DecidableEq, Repr

/-- An `fx.Node`: stable id, node op string (`"call_function"`, `"output"`,
`"placeholder"`, ...), call target and positional argument list. -/
structure Node where
  id : Nat
  op : String
  target : OpKind
  args : List Arg
deriving DecidableEq, Repr

/-- `NodeAttrs` from the source: the signedness flag propagated through node
metadata. -/
structure NodeAttrs where
  unsigned : Bool := false
deriving DecidableEq, Repr

/-- Python exceptions surfaced by the lowering.  `assertionFailed` models a
failing `assert` statement (double bind, subgraph arity). -/
inductive Err where
  | codegen (msg : String) : Err
  | validation (msg : String) : Err
  | assertionFailed (msg : String) : Err
deriving DecidableEq, Repr

/-- The `WaveEmitter` mutable state: the write-once binding table
`_node_values`, the node metadata written by `NodeAttrs.store`, the emitted
instruction trace at the insertion point, and the fresh SSA id counter. -/
structure EmitterState where
  nodeValues : List (Nat × List IRProxyValue) := []
  nodeMeta : List (Nat × Bool) := []
  instrs : List Instr := []
  nextId : Nat := 0
deriving DecidableEq, Repr

/-- Emitting computations: either an error (with the state at the raise
point, since python exceptions do not roll back mutations) or a result with
the updated state. -/
abbrev EmitResult (α : Type) := Except (Err × EmitterState) (α × EmitterState)

/-- Allocate a fresh value of the given type and constant payload and append
an instruction defining it. -/
def emitValue (s : EmitterState) (t : IrType) (c : Option Attr)
    (mk : Nat → Instr) : Value × EmitterState :=
  let v : Value := { id := s.nextId, type := t, const := c }
  (v, { s with nextId := s.nextId + 1, instrs := s.instrs ++ [mk s.nextId] })

/-- `arith_d.constant(type, attr)`. -/
def arith_constant (t : IrType) (a : Attr) (s : EmitterState) : Value × EmitterState :=
  emitValue s t (some a) (fun r => .constant t a r)

/-- `vector_d.transfer_read(vector_type, source, indices, map, pad)`. -/
def vector_transfer_read (vecType : IrType) (source : Value) (indices : List Value)
    (map : AffineMap) (pad : Value) (s : EmitterState) : Value × EmitterState :=
  emitValue s vecType none (fun r => .transfer_read vecType source indices map pad r)

/-- `vector_d.broadcast(type, src)`. -/
def vector_broadcast (t : IrType) (src : Value) (s : EmitterState) : Value × EmitterState :=
  emitValue s t none (fun r => .broadcast t src r)

/-- `vector_d.transfer_write(None, vec, dest, indices, map)`: no result. -/
def vector_transfer_write (vec : Value) (dest : Value) (indices : List Value)
    (map : AffineMap) (s : EmitterState) : EmitterState :=
  { s with instrs := s.instrs ++ [.transfer_write vec dest indices map] }

/-- `vector_d.ContractionOp(acc.type, lhs, rhs, acc, maps, iters).result`. -/
def vector_contraction (resType : IrType) (lhs rhs acc : Value)
    (maps : List AffineMap) (iters : List IteratorType) (s : EmitterState) :
    Value × EmitterState :=
  emitValue s resType none (fun r => .contraction resType lhs rhs acc maps iters r)

/-- Modelled from the spec: `ScalarBuilder.zero_attr` (from
`compiler/builder.py`, not among the visible sources) builds the
type-appropriate zero attribute used as the out-of-bounds pad value. -/
def zero_attr (t : IrType) : Attr := .zeroOf t

/-- The message of the write-once assertion in `bind_node_proxy` /
`bind_node_proxies`. -/
def doubleBindMsg (nodeId : Nat) : String :=
  "Cannot rebind node " ++ toString nodeId ++ ": already bound"

/-- `WaveEmitter.lookup_node_values`: return the binding-table entry for the
node, or resolve the node through the fallback of the bound signature
(`_root_sig.resolve_by_reference(("node", node))`, modelled by the function
`sig`), cache the single-value list, and return it.  Never raises. -/
def lookup_node_values (sig : Nat → Value) (nodeId : Nat) (s : EmitterState) :
    List IRProxyValue × EmitterState :=
  match s.nodeValues.lookup nodeId with
  | some values => (values, s)
  | none =>
      let values := [sig nodeId]
      (values, { s with nodeValues := (nodeId, values) :: s.nodeValues })

/-- Write the signedness metadata of a node (`NodeAttrs.store`). -/
def storeAttrs (nodeId : Nat) (attrs : NodeAttrs) (s : EmitterState) : EmitterState :=
  { s with nodeMeta := (nodeId, attrs.unsigned) :: s.nodeMeta }

/-- `WaveEmitter.bind_node_proxy`: assert the node is not already bound
(write-once), optionally store node attrs, then record the singleton value
list. -/
def bind_node_proxy (node : Node) (proxy : IRProxyValue)
    (attrs : Option NodeAttrs) (s : EmitterState) : EmitResult Unit :=
  if (s.nodeValues.lookup node.id).isSome then
    .error (.assertionFailed (doubleBindMsg node.id), s)
  else
    let s := match attrs with
      | some a => storeAttrs node.id a s
      | none => s
    .ok ((), { s with nodeValues := (node.id, [proxy]) :: s.nodeValues })

/-- `WaveEmitter.bind_node_proxies`: as `bind_node_proxy` but records an
ordered list of values (multi-result ops). -/
def bind_node_proxies (node : Node) (proxies : List IRProxyValue)
    (attrs : Option NodeAttrs) (s : EmitterState) : EmitResult Unit :=
  if (s.nodeValues.lookup node.id).isSome then
    .error (.assertionFailed (doubleBindMsg node.id), s)
  else
    let s := match attrs with
      | some a => storeAttrs node.id a s
      | none => s
    .ok ((), { s with nodeValues := (node.id, proxies) :: s.nodeValues })

/-- Modelled from the spec: `cast_py_literal` (from
`compiler/vector_codegen.py`, not among the visible sources) casts a python
literal tuple of ints — here the requested tile shape — to its IR-side
representation, leaving the integer contents unchanged. -/
def cast_py_literal (shape : List Nat) : List Nat := shape

/-- Modelled from the spec: `cast_kernel_buffer` (from
`compiler/vector_codegen.py`, not among the visible sources) resolves a
buffer argument to its low-level handle, its memref IR type and its python
type whose symbolic logical shape is already resolved through the active
indexing context (so the resolved symbolic shape coincides with the memref
shape).  A non-buffer argument is a fatal codegen error. -/
def cast_kernel_buffer (sig : Nat → Value) (memory : Arg) (s : EmitterState) :
    EmitResult (Value × List Nat × IrType) :=
  match memory with
  | .lit _ => .error (.codegen "Expected a kernel buffer", s)
  | .nodeRef nid =>
      let (vs, s) := lookup_node_values sig nid s
      match vs with
      | [v] =>
          match v.type with
          | .memref shape elem => .ok ((v, shape, elem), s)
          | _ => .error (.codegen "Expected a kernel buffer", s)
      | _ => .error (.codegen "Expected a kernel buffer", s)

/-- Modelled from the spec: `cast_vector` (from
`compiler/vector_codegen.py`, not among the visible sources) coerces an
argument to a vector value by resolving it through the binding table; when a
target element type is requested the value is cast to it.  A non-vector
argument is a fatal codegen error. -/
def cast_vector (sig : Nat → Value) (arg : Arg) (element_type : Option IrType)
    (s : EmitterState) : EmitResult Value :=
  match arg with
  | .lit _ => .error (.codegen "Expected a vector value", s)
  | .nodeRef nid =>
      let (vs, s) := lookup_node_values sig nid s
      match vs with
      | [v] =>
          match v.type with
          | .vector shape elem =>
              match element_type with
              | none => .ok (v, s)
              | some et =>
                  if et = elem then .ok (v, s)
                  else .ok ({ v with type := .vector shape et }, s)
          | _ => .error (.codegen "Expected a vector value", s)
      | _ => .error (.codegen "Expected a vector value", s)

/-- The `@handle_op(read)` handler.  Unpacking `(memory, elements_per_thread)
= node.args` with the wrong arity raises `ValidationError("Malformed
arguments")`; otherwise resolve the buffer, emit the two hard-coded zero
start-index constants, the zero pad constant, the (16,16) vectorized
`transfer_read` with the minor-identity map from the resolved buffer
symbolic rank onto the tile rank, and bind the single result. -/
def handle_read (sig : Nat → Value) (node : Node) (s : EmitterState) : EmitResult Unit :=
  match node.args with
  | [memory, _elements_per_thread] =>
      let vector_shape := cast_py_literal [16, 16]
      match cast_kernel_buffer sig memory s with
      | .error e => .error e
      | .ok ((kb_src, ref_shape, element_type), s) =>
          let (c0, s) := arith_constant .index (.idx 0) s
          let (c1, s) := arith_constant .index (.idx 0) s
          let start_indices := [c0, c1]
          let vector_type := IrType.vector vector_shape element_type
          let pad_attr := zero_attr element_type
          let (pad_value, s) := arith_constant element_type pad_attr s
          let (result, s) := vector_transfer_read vector_type kb_src start_indices
            (AffineMap.get_minor_identity ref_shape.length vector_shape.length)
            pad_value s
          bind_node_proxy node result none s
  | _ => .error (.validation "Malformed arguments", s)

/-- The `@handle_op(write)` handler.  Wrong unpack arity raises
`ValidationError("Malformed arguments")`; otherwise resolve the destination
buffer, emit the two hard-coded zero start-index constants, check the
destination rank against the start-index count (mismatch is a
`CodegenError` citing both), coerce the register operand to a vector of the
destination element type, broadcast a rank-0 operand to the all-ones shape,
and emit the `transfer_write` with
`get_minor_identity(dest_rank, insert_rank)` where `insert_rank` is the
operand rank read before the broadcast.  Binds nothing. -/
def handle_write (sig : Nat → Value) (node : Node) (s : EmitterState) : EmitResult Unit :=
  match node.args with
  | [register, memory, _elements_per_thread] =>
      match cast_kernel_buffer sig memory s with
      | .error e => .error e
      | .ok ((kb_dest, kb_shape, element_type), s) =>
          let dest_rank := kb_shape.length
          let (c0, s) := arith_constant .index (.idx 0) s
          let (c1, s) := arith_constant .index (.idx 0) s
          let start_indices := [c0, c1]
          if dest_rank ≠ start_indices.length then
            .error (.codegen ("Mismatched slice assignment: Expected rank " ++
              toString dest_rank ++ ", got " ++ toString start_indices.length), s)
          else
            match cast_vector sig register (some element_type) s with
            | .error e => .error e
            | .ok (insert_vector, s) =>
                let insert_rank := insert_vector.type.rank
                let (insert_vector, s) :=
                  if insert_rank = 0 then
                    let broadcast_type :=
                      IrType.vector (List.replicate dest_rank 1) element_type
                    vector_broadcast broadcast_type insert_vector s
                  else (insert_vector, s)
                let permutation_map := AffineMap.get_minor_identity dest_rank insert_rank
                .ok ((), vector_transfer_write insert_vector kb_dest start_indices
                  permutation_map s)
  | _ => .error (.validation "Malformed arguments", s)

/-- The fixed iteration-role sequence the mma handler parses:
`[parallel, parallel, reduction]`. -/
def mmaIteratorTypes : List IteratorType := [.parallel, .parallel, .reduction]

/-- The three fixed indexing maps the mma handler builds over dims
`n = d0, m = d1, k = d2`: lhs `(n, k)`, rhs `(k, m)`, acc `(n, m)`. -/
def mmaIndexingMaps : List AffineMap :=
  [AffineMap.get 3 0 [0, 2], AffineMap.get 3 0 [2, 1], AffineMap.get 3 0 [0, 1]]

/-- The `@handle_op(mma)` handler.  Wrong unpack arity raises
`ValidationError("Malformed arguments")`; otherwise coerce the three
operands to vectors, emit the contraction with the fixed indexing maps and
iterator types and the accumulator type as result type, and bind the
single result. -/
def handle_mma (sig : Nat → Value) (node : Node) (s : EmitterState) : EmitResult Unit :=
  match node.args with
  | [lhsArg, rhsArg, accArg] =>
      match cast_vector sig lhsArg none s with
      | .error e => .error e
      | .ok (lhs, s) =>
          match cast_vector sig rhsArg none s with
          | .error e => .error e
          | .ok (rhs, s) =>
              match cast_vector sig accArg none s with
              | .error e => .error e
              | .ok (acc, s) =>
                  let (result, s) := vector_contraction acc.type lhs rhs acc
                    mmaIndexingMaps mmaIteratorTypes s
                  bind_node_proxy node result none s
  | _ => .error (.validation "Malformed arguments", s)

/-- The `@handle_op(py_operator.call)` handler.  The source body is a bare
interactive `breakpoint()`: it emits nothing and binds nothing, so the
embedding is the identity on the emitter state. -/
def handle_pycall (_sig : Nat → Value) (_node : Node) (s : EmitterState) : EmitResult Unit :=
  .ok ((), s)

/-- `WaveEmitter.OP_HANDLERS`, the registry populated by the `@handle_op`
decorators at import time: `py_operator.call`, `read`, `write`, `mma`. -/
def OP_HANDLERS : OpKind →
    Option ((Nat → Value) → Node → EmitterState → EmitResult Unit)
  | .pycall => some handle_pycall
  | .read => some handle_read
  | .write => some handle_write
  | .mma => some handle_mma
  | .other _ => none

/-- `WaveEmitter.emit_function_call_node`: look the target of the node up in the
registry; a missing entry raises `CodegenError` naming the target, before
any emission or binding; otherwise the handler runs. -/
def emit_function_call_node (sig : Nat → Value) (node : Node) (s : EmitterState) :
    EmitResult Unit :=
  match OP_HANDLERS node.target with
  | none => .error (.codegen ("No handler registered for op " ++ node.target.name), s)
  | some handler => handler sig node s

/-- `WaveEmitter.emit_graph`: walk the nodes in declared order; a
call-function node is dispatched; the first output node stops the traversal
and its argument tuple is returned (`some args`); falling off the end
returns the implicit python `None`. -/
def emit_graph (sig : Nat → Value) (nodes : List Node) (s : EmitterState) :
    EmitResult (Option (List Arg)) :=
  match nodes with
  | [] => .ok (none, s)
  | node :: rest =>
      match (if node.op = "call_function" then emit_function_call_node sig node s
             else .ok ((), s)) with
      | .error e => .error e
      | .ok ((), s) =>
          if node.op = "output" then .ok (some node.args, s)
          else emit_graph sig rest s

/-- The free-variable substitution loop of `emit_subgraph`: for each
`(freevar, arg)` pair of `zip(freevars, implicit_capture)` the freevar
binding-table entry is assigned (plain dict assignment, no write-once check)
the values `lookup_node_values(arg)` returns. -/
def substituteFreevars (sig : Nat → Value) (pairs : List (Nat × Nat))
    (s : EmitterState) : EmitterState :=
  match pairs with
  | [] => s
  | (fv, arg) :: rest =>
      let (values, s) := lookup_node_values sig arg s
      substituteFreevars sig rest { s with nodeValues := (fv, values) :: s.nodeValues }

/-- The message of the arity assertion in `emit_subgraph`. -/
def subgraphArityMsg (nFree nCapture : Nat) : String :=
  "Expected " ++ toString nFree ++ " implicit capture args, got " ++ toString nCapture

/-- `WaveEmitter.emit_subgraph`: assert
`len(freevars) == len(implicit_capture)` (failure raises before any
substitution), substitute each freevar positionally with the resolved values
of its captured argument, then emit the subgraph nodes. -/
def emit_subgraph (sig : Nat → Value) (freevars : List Nat)
    (subgraphNodes : List Node) (implicit_capture : List Nat) (s : EmitterState) :
    EmitResult (Option (List Arg)) :=
  if freevars.length ≠ implicit_capture.length then
    .error (.assertionFailed (subgraphArityMsg freevars.length implicit_capture.length), s)
  else
    emit_graph sig subgraphNodes (substituteFreevars sig (freevars.zip implicit_capture) s)

/-- Is an instruction a vectorized store (`vector.transfer_write`)? -/
def Instr.isStore : Instr → Bool
  | .transfer_write _ _ _ _ => true
  | _ => false

/-- The permutation maps of the stores in an instruction trace, in order. -/
def transferWriteMaps (l : List Instr) : List AffineMap :=
  l.foldr (fun i acc => match i with
    | .transfer_write _ _ _ m => m :: acc
    | _ => acc) []

/-! ### Concrete fixtures

A bound signature fallback and a small pre-populated emitter state used to
evaluate the lowering on concrete inputs. -/

/-- A concrete bound-signature fallback resolver. -/
def sigF : Nat → Value := fun n => { id := 1000 + n, type := .f32 }

/-- A rank-2 kernel buffer of resolved symbolic shape (64, 64) over f32. -/
def bufValue : Value := { id := 100, type := .memref [64, 64] .f32 }

/-- A rank-3 kernel buffer, for the write rank-mismatch scenario. -/
def buf3Value : Value := { id := 105, type := .memref [8, 8, 8] .f32 }

/-- A rank-0 (scalar) vector register value. -/
def scalarRegValue : Value := { id := 101, type := .vector [] .f32 }

/-- Concrete vector operands for the mma scenario. -/
def vecA : Value := { id := 102, type := .vector [16, 8] .f32 }

/-- Second mma operand. -/
def vecB : Value := { id := 103, type := .vector [8, 32] .f32 }

/-- Accumulator operand for the mma scenario. -/
def vecC : Value := { id := 104, type := .vector [16, 32] .f32 }

/-- An emitter state with the buffer, scalar register and mma operands
already bound (node ids 1–6). -/
def baseState : EmitterState :=
  { nodeValues := [(1, [bufValue]), (2, [scalarRegValue]), (3, [vecA]),
      (4, [vecB]), (5, [vecC]), (6, [buf3Value])],
    nextId := 9 }

/-- A well-formed read node over the (64, 64) buffer. -/
def readNodeF : Node :=
  { id := 10, op := "call_function", target := .read, args := [.nodeRef 1, .lit 4] }

/-- A write node storing the rank-0 register into the rank-2 buffer. -/
def writeScalarNodeF : Node :=
  { id := 11, op := "call_function", target := .write,
    args := [.nodeRef 2, .nodeRef 1, .lit 4] }

/-- A well-formed mma node over the three vector operands. -/
def mmaNodeF : Node :=
  { id := 12, op := "call_function", target := .mma,
    args := [.nodeRef 3, .nodeRef 4, .nodeRef 5] }

/-- A write node whose destination buffer has rank 3. -/
def writeRank3NodeF : Node :=
  { id := 13, op := "call_function", target := .write,
    args := [.nodeRef 2, .nodeRef 6, .lit 4] }

/-- A call node whose target has no registry entry. -/
def unknownNodeF : Node :=
  { id := 14, op := "call_function", target := .other "foo", args := [] }

/-- A read node with the wrong number of positional arguments. -/
def badReadNodeF : Node :=
  { id := 15, op := "call_function", target := .read, args := [.nodeRef 1] }

/-- An mma node with the wrong number of positional arguments. -/
def badMmaNodeF : Node :=
  { id := 16, op := "call_function", target := .mma, args := [.nodeRef 3, .nodeRef 4] }

/-- An output node returning the result of the mma node. -/
def outputNodeF : Node :=
  { id := 17, op := "output", target := .other "output", args := [.nodeRef 12] }

/-! ### Helper lemmas -/

/-- Looking a key up in an association list that starts with that key yields
the freshly stored values. -/
theorem lookup_cons_self (id : Nat) (vs : List IRProxyValue)
    (l : List (Nat × List IRProxyValue)) :
    List.lookup id ((id, vs) :: l) = some vs := by
  simp [List.lookup]

/-- Looking a key up past an entry for a different key is unchanged. -/
theorem lookup_cons_ne (id fv : Nat) (vs : List IRProxyValue)
    (l : List (Nat × List IRProxyValue)) (h : id ≠ fv) :
    List.lookup id ((fv, vs) :: l) = List.lookup id l := by
  have hb : (id == fv) = false := beq_eq_false_iff_ne.mpr h
  simp [List.lookup, hb]

/-- The substitution loop of `emit_subgraph`, when every captured argument is
already bound, the free variables are pairwise distinct and disjoint from the
captured arguments: it emits nothing, allocates nothing, assigns each free
variable exactly the values its captured argument resolves to, and leaves
every other binding-table entry unchanged. -/
theorem substituteFreevars_bound (sig : Nat → Value) (pairs : List (Nat × Nat))
    (s : EmitterState)
    (hbound : ∀ p ∈ pairs, (s.nodeValues.lookup p.2).isSome = true)
    (hnodup : (pairs.map Prod.fst).Nodup)
    (hdisj : ∀ p ∈ pairs, ∀ q ∈ pairs, p.1 ≠ q.2) :
    (substituteFreevars sig pairs s).instrs = s.instrs ∧
    (substituteFreevars sig pairs s).nextId = s.nextId ∧
    (∀ p ∈ pairs, (substituteFreevars sig pairs s).nodeValues.lookup p.1 =
      s.nodeValues.lookup p.2) ∧
    (∀ id : Nat, id ∉ pairs.map Prod.fst →
      (substituteFreevars sig pairs s).nodeValues.lookup id =
        s.nodeValues.lookup id) := by
  induction pairs generalizing s with
  | nil => simp [substituteFreevars]
  | cons hd rest ih =>
      obtain ⟨fv, arg⟩ := hd
      obtain ⟨vals, hvals⟩ := Option.isSome_iff_exists.mp
        (hbound (fv, arg) (List.mem_cons_self _ _))
      have hstep : substituteFreevars sig ((fv, arg) :: rest) s =
          substituteFreevars sig rest
            { s with nodeValues := (fv, vals) :: s.nodeValues } := by
        simp [substituteFreevars, lookup_node_values, hvals]
      set s2 : EmitterState := { s with nodeValues := (fv, vals) :: s.nodeValues } with hs2
      have hfvne : ∀ q ∈ ((fv, arg) :: rest), fv ≠ q.2 := by
        intro q hq
        exact hdisj (fv, arg) (List.mem_cons_self _ _) q hq
      have hbound2 : ∀ p ∈ rest, (s2.nodeValues.lookup p.2).isSome = true := by
        intro p hp
        have hne : p.2 ≠ fv := (hfvne p (List.mem_cons_of_mem _ hp)).symm
        rw [hs2]
        rw [lookup_cons_ne _ _ _ _ hne]
        exact hbound p (List.mem_cons_of_mem _ hp)
      have hnodup2 : (rest.map Prod.fst).Nodup := by
        simpa using hnodup.of_cons
      have hdisj2 : ∀ p ∈ rest, ∀ q ∈ rest, p.1 ≠ q.2 := by
        intro p hp q hq
        exact hdisj p (List.mem_cons_of_mem _ hp) q (List.mem_cons_of_mem _ hq)
      obtain ⟨hinstr2, hnid2, hpairs2, hframe2⟩ := ih s2 hbound2 hnodup2 hdisj2
      have hfv_notin : fv ∉ rest.map Prod.fst := by
        have := hnodup
        simp only [List.map_cons, List.nodup_cons] at this
        exact this.1
      refine ⟨?_, ?_, ?_, ?_⟩
      · rw [hstep, hinstr2]
      · rw [hstep, hnid2]
      · intro p hp
        rcases List.mem_cons.mp hp with heq | hmem
        · subst heq
          rw [hstep, hframe2 fv hfv_notin, hs2, lookup_cons_self, hvals]
        · have hne : p.2 ≠ fv := (hfvne p (List.mem_cons_of_mem _ hmem)).symm
          rw [hstep, hpairs2 p hmem, hs2, lookup_cons_ne _ _ _ _ hne]
      · intro id hid
        simp only [List.map_cons, List.mem_cons, not_or] at hid
        rw [hstep, hframe2 id hid.2, hs2, lookup_cons_ne _ _ _ _ hid.1]

/-! ### Claim theorems -/

/-- Claim C1: binding the result of a node a first time succeeds — via
`bind_node_proxy` or `bind_node_proxies` — and a subsequent
`lookup_node_values` returns exactly the bound value(s); calling either bind
operation a second time on the same node raises the double-bind assertion
error. -/
theorem write_once_binding (sig : Nat → Value) (node : Node)
    (proxy p1 p2 : IRProxyValue) (proxies ps1 ps2 : List IRProxyValue)
    (a1 a2 a3 a4 : Option NodeAttrs) (s : EmitterState)
    (hunbound : s.nodeValues.lookup node.id = none) :
    (bind_node_proxy node proxy none s =
        .ok ((), { s with nodeValues := (node.id, [proxy]) :: s.nodeValues }) ∧
      lookup_node_values sig node.id
          { s with nodeValues := (node.id, [proxy]) :: s.nodeValues } =
        ([proxy], { s with nodeValues := (node.id, [proxy]) :: s.nodeValues }) ∧
      bind_node_proxy node p1 a1
          { s with nodeValues := (node.id, [proxy]) :: s.nodeValues } =
        .error (.assertionFailed (doubleBindMsg node.id),
          { s with nodeValues := (node.id, [proxy]) :: s.nodeValues }) ∧
      bind_node_proxies node ps1 a2
          { s with nodeValues := (node.id, [proxy]) :: s.nodeValues } =
        .error (.assertionFailed (doubleBindMsg node.id),
          { s with nodeValues := (node.id, [proxy]) :: s.nodeValues })) ∧
    (bind_node_proxies node proxies none s =
        .ok ((), { s with nodeValues := (node.id, proxies) :: s.nodeValues }) ∧
      lookup_node_values sig node.id
          { s with nodeValues := (node.id, proxies) :: s.nodeValues } =
        (proxies, { s with nodeValues := (node.id, proxies) :: s.nodeValues }) ∧
      bind_node_proxy node p2 a3
          { s with nodeValues := (node.id, proxies) :: s.nodeValues } =
        .error (.assertionFailed (doubleBindMsg node.id),
          { s with nodeValues := (node.id, proxies) :: s.nodeValues }) ∧
      bind_node_proxies node ps2 a4
          { s with nodeValues := (node.id, proxies) :: s.nodeValues } =
        .error (.assertionFailed (doubleBindMsg node.id),
          { s with nodeValues := (node.id, proxies) :: s.nodeValues })) := by
  simp [bind_node_proxy, bind_node_proxies, lookup_node_values, hunbound, List.lookup]

/-- Witness for claim C1: the hypothesis and four key conjuncts at the
concrete unbound node `readNodeF` in `baseState`. -/
theorem write_once_binding_witness :
    baseState.nodeValues.lookup readNodeF.id = none ∧
    bind_node_proxy readNodeF vecA none baseState =
      .ok ((), { baseState with
        nodeValues := (readNodeF.id, [vecA]) :: baseState.nodeValues }) ∧
    bind_node_proxy readNodeF vecB none
        { baseState with nodeValues := (readNodeF.id, [vecA]) :: baseState.nodeValues } =
      .error (.assertionFailed (doubleBindMsg readNodeF.id),
        { baseState with nodeValues := (readNodeF.id, [vecA]) :: baseState.nodeValues }) ∧
    bind_node_proxies readNodeF [vecB, vecC] none baseState =
      .ok ((), { baseState with
        nodeValues := (readNodeF.id, [vecB, vecC]) :: baseState.nodeValues }) ∧
    bind_node_proxies readNodeF [] (some { unsigned := true })
        { baseState with nodeValues := (readNodeF.id, [vecB, vecC]) :: baseState.nodeValues } =
      .error (.assertionFailed (doubleBindMsg readNodeF.id),
        { baseState with nodeValues := (readNodeF.id, [vecB, vecC]) :: baseState.nodeValues }) := by
  have h := write_once_binding sigF readNodeF vecA vecB vecC [vecB, vecC] [] []
    none none none (some { unsigned := true }) baseState (by decide)
  exact ⟨by decide, h.1.1, h.1.2.2.1, h.2.1, h.2.2.2.2⟩

/-- Claim C10: for a node with no binding-table entry, `lookup_node_values`
resolves the node through the bound-signature fallback and caches the
resulting single-value list in the binding table, so any later attempt to
bind that node via `bind_node_proxy` or `bind_node_proxies` fails with the
double-bind error. -/
theorem lookup_fallback_blocks_bind (sig : Nat → Value) (node : Node)
    (p : IRProxyValue) (ps : List IRProxyValue) (a1 a2 : Option NodeAttrs)
    (s : EmitterState)
    (hunbound : s.nodeValues.lookup node.id = none) :
    lookup_node_values sig node.id s =
      ([sig node.id],
       { s with nodeValues := (node.id, [sig node.id]) :: s.nodeValues }) ∧
    ({ s with nodeValues := (node.id, [sig node.id]) :: s.nodeValues }
        : EmitterState).nodeValues.lookup node.id = some [sig node.id] ∧
    bind_node_proxy node p a1
        { s with nodeValues := (node.id, [sig node.id]) :: s.nodeValues } =
      .error (.assertionFailed (doubleBindMsg node.id),
        { s with nodeValues := (node.id, [sig node.id]) :: s.nodeValues }) ∧
    bind_node_proxies node ps a2
        { s with nodeValues := (node.id, [sig node.id]) :: s.nodeValues } =
      .error (.assertionFailed (doubleBindMsg node.id),
        { s with nodeValues := (node.id, [sig node.id]) :: s.nodeValues }) := by
  simp [bind_node_proxy, bind_node_proxies, lookup_node_values, hunbound, List.lookup]

/-- Witness for claim C10 at the concrete unbound node `unknownNodeF`. -/
theorem lookup_fallback_blocks_bind_witness :
    baseState.nodeValues.lookup unknownNodeF.id = none ∧
    lookup_node_values sigF unknownNodeF.id baseState =
      ([sigF unknownNodeF.id],
       { baseState with
         nodeValues := (unknownNodeF.id, [sigF unknownNodeF.id]) ::
           baseState.nodeValues }) ∧
    bind_node_proxy unknownNodeF vecA none
        { baseState with
          nodeValues := (unknownNodeF.id, [sigF unknownNodeF.id]) ::
            baseState.nodeValues } =
      .error (.assertionFailed (doubleBindMsg unknownNodeF.id),
        { baseState with
          nodeValues := (unknownNodeF.id, [sigF unknownNodeF.id]) ::
            baseState.nodeValues }) ∧
    bind_node_proxies unknownNodeF [vecB] none
        { baseState with
          nodeValues := (unknownNodeF.id, [sigF unknownNodeF.id]) ::
            baseState.nodeValues } =
      .error (.assertionFailed (doubleBindMsg unknownNodeF.id),
        { baseState with
          nodeValues := (unknownNodeF.id, [sigF unknownNodeF.id]) ::
            baseState.nodeValues }) := by
  have h := lookup_fallback_blocks_bind sigF unknownNodeF vecA [vecB]
    none none baseState (by decide)
  exact ⟨by decide, h.1, h.2.2.1, h.2.2.2⟩

/-- Claim C3: a call node whose operation kind has no registry entry makes
`emit_function_call_node` raise a `CodegenError` naming that kind, with the
emitter state unchanged — no instruction emitted and no binding created. -/
theorem unregistered_op_fatal (sig : Nat → Value) (node : Node) (s : EmitterState)
    (h : OP_HANDLERS node.target = none) :
    emit_function_call_node sig node s =
      .error (.codegen ("No handler registered for op " ++ node.target.name), s) := by
  simp [emit_function_call_node, h]

/-- Witness for claim C3 at the concrete node `unknownNodeF`. -/
theorem unregistered_op_fatal_witness :
    OP_HANDLERS unknownNodeF.target = none ∧
    emit_function_call_node sigF unknownNodeF baseState =
      .error (.codegen ("No handler registered for op " ++ unknownNodeF.target.name),
        baseState) :=
  ⟨rfl, unregistered_op_fatal sigF unknownNodeF baseState rfl⟩

/-- Claim C2: for any operand shapes, the mma handler emits exactly one
contraction whose iteration-role sequence is exactly
`[parallel, parallel, reduction]` and whose three index maps are exactly
(dim0, dim2) for lhs, (dim2, dim1) for rhs and (dim0, dim1) for the
accumulator/result, and it binds exactly one result whose type is the
accumulator type. -/
theorem mma_fixed_roles_and_maps (sig : Nat → Value) (node : Node) (s : EmitterState)
    (la ra aa : Nat) (va vb vc : Value)
    (sa sb sc : List Nat) (ea eb ec : IrType)
    (htarget : node.target = .mma)
    (hargs : node.args = [.nodeRef la, .nodeRef ra, .nodeRef aa])
    (hla : s.nodeValues.lookup la = some [va]) (hva : va.type = .vector sa ea)
    (hra : s.nodeValues.lookup ra = some [vb]) (hvb : vb.type = .vector sb eb)
    (haa : s.nodeValues.lookup aa = some [vc]) (hvc : vc.type = .vector sc ec)
    (hunbound : s.nodeValues.lookup node.id = none) :
    emit_function_call_node sig node s =
      .ok ((), { s with
        nextId := s.nextId + 1,
        instrs := s.instrs ++
          [.contraction vc.type va vb vc
            [AffineMap.get 3 0 [0, 2], AffineMap.get 3 0 [2, 1], AffineMap.get 3 0 [0, 1]]
            [.parallel, .parallel, .reduction] s.nextId],
        nodeValues :=
          (node.id, [{ id := s.nextId, type := vc.type, const := none }]) ::
            s.nodeValues }) := by
  simp [emit_function_call_node, htarget, OP_HANDLERS, handle_mma, hargs,
    cast_vector, lookup_node_values, hla, hra, haa, hva, hvb, hvc,
    vector_contraction, emitValue, bind_node_proxy, hunbound,
    mmaIndexingMaps, mmaIteratorTypes]

/-- Witness for claim C2 at the concrete mma node `mmaNodeF` in
`baseState`. -/
theorem mma_fixed_roles_and_maps_witness :
    baseState.nodeValues.lookup 3 = some [vecA] ∧
    baseState.nodeValues.lookup 4 = some [vecB] ∧
    baseState.nodeValues.lookup 5 = some [vecC] ∧
    baseState.nodeValues.lookup mmaNodeF.id = none ∧
    emit_function_call_node sigF mmaNodeF baseState =
      .ok ((), { baseState with
        nextId := baseState.nextId + 1,
        instrs := baseState.instrs ++
          [.contraction vecC.type vecA vecB vecC
            [AffineMap.get 3 0 [0, 2], AffineMap.get 3 0 [2, 1], AffineMap.get 3 0 [0, 1]]
            [.parallel, .parallel, .reduction] baseState.nextId],
        nodeValues :=
          (mmaNodeF.id, [{ id := baseState.nextId, type := vecC.type, const := none }]) ::
            baseState.nodeValues }) := by
  refine ⟨by decide, by decide, by decide, by decide, ?_⟩
  exact mma_fixed_roles_and_maps sigF mmaNodeF baseState 3 4 5 vecA vecB vecC
    [16, 8] [8, 32] [16, 32] IrType.f32 IrType.f32 IrType.f32
    rfl rfl (by decide) rfl (by decide) rfl (by decide) rfl (by decide)

/-- Claim C5: lowering a read node over a rank-2 buffer with resolved
symbolic shape (64, 64) and 32-bit float elements emits exactly one
vectorized `transfer_read` of vector shape (16, 16), with all-zero start
offsets, a pad constant holding the zero of the buffer element type, and
the minor-identity permutation map from source rank 2 to tile rank 2, and
binds exactly one resulting value to the node. -/
theorem read_lowering_64x64_f32 (sig : Nat → Value) (node : Node) (s : EmitterState)
    (m : Nat) (ept : Arg) (vbuf : Value)
    (htarget : node.target = .read)
    (hargs : node.args = [.nodeRef m, ept])
    (hm : s.nodeValues.lookup m = some [vbuf])
    (hvb : vbuf.type = .memref [64, 64] .f32)
    (hunbound : s.nodeValues.lookup node.id = none) :
    emit_function_call_node sig node s =
      .ok ((), { s with
        nextId := s.nextId + 4,
        instrs := s.instrs ++
          [.constant .index (.idx 0) s.nextId,
           .constant .index (.idx 0) (s.nextId + 1),
           .constant .f32 (.zeroOf .f32) (s.nextId + 2),
           .transfer_read (.vector [16, 16] .f32) vbuf
             [{ id := s.nextId, type := .index, const := some (.idx 0) },
              { id := s.nextId + 1, type := .index, const := some (.idx 0) }]
             (AffineMap.get_minor_identity 2 2)
             { id := s.nextId + 2, type := .f32, const := some (.zeroOf .f32) }
             (s.nextId + 3)],
        nodeValues :=
          (node.id, [{ id := s.nextId + 3, type := .vector [16, 16] .f32, const := none }]) ::
            s.nodeValues }) := by
  simp [emit_function_call_node, htarget, OP_HANDLERS, handle_read, hargs,
    cast_kernel_buffer, lookup_node_values, hm, hvb, cast_py_literal,
    arith_constant, vector_transfer_read, emitValue, bind_node_proxy, hunbound,
    zero_attr]

/-- Witness for claim C5 at the concrete read node `readNodeF` over the
(64, 64) f32 buffer in `baseState`. -/
theorem read_lowering_64x64_f32_witness :
    baseState.nodeValues.lookup 1 = some [bufValue] ∧
    bufValue.type = .memref [64, 64] .f32 ∧
    baseState.nodeValues.lookup readNodeF.id = none ∧
    emit_function_call_node sigF readNodeF baseState =
      .ok ((), { baseState with
        nextId := baseState.nextId + 4,
        instrs := baseState.instrs ++
          [.constant .index (.idx 0) baseState.nextId,
           .constant .index (.idx 0) (baseState.nextId + 1),
           .constant .f32 (.zeroOf .f32) (baseState.nextId + 2),
           .transfer_read (.vector [16, 16] .f32) bufValue
             [{ id := baseState.nextId, type := .index, const := some (.idx 0) },
              { id := baseState.nextId + 1, type := .index, const := some (.idx 0) }]
             (AffineMap.get_minor_identity 2 2)
             { id := baseState.nextId + 2, type := .f32, const := some (.zeroOf .f32) }
             (baseState.nextId + 3)],
        nodeValues :=
          (readNodeF.id,
            [{ id := baseState.nextId + 3, type := .vector [16, 16] .f32, const := none }]) ::
            baseState.nodeValues }) := by
  refine ⟨by decide, rfl, by decide, ?_⟩
  exact read_lowering_64x64_f32 sigF readNodeF baseState 1 (.lit 4) bufValue rfl rfl
    (by decide) rfl (by decide)

/-- Claim C6 (amended): writing a rank-0 operand into a rank-2 destination
raises no rank-mismatch error; the operand is broadcast to the all-ones
shape (1, 1) matching the destination rank and the vectorized store is
emitted with the minor-identity permutation map computed from the
destination rank and the operand rank read before the broadcast, i.e. the
map of rank (2 to 0), not (2 to 2). -/
theorem rank0_store_broadcast (sig : Nat → Value) (node : Node) (s : EmitterState)
    (reg mem : Nat) (ept : Arg) (vreg vbuf : Value) (r c : Nat) (et : IrType)
    (htarget : node.target = .write)
    (hargs : node.args = [.nodeRef reg, .nodeRef mem, ept])
    (hm : s.nodeValues.lookup mem = some [vbuf])
    (hvb : vbuf.type = .memref [r, c] et)
    (hr : s.nodeValues.lookup reg = some [vreg])
    (hvr : vreg.type = .vector [] et) :
    emit_function_call_node sig node s =
      .ok ((), { s with
        nextId := s.nextId + 3,
        instrs := s.instrs ++
          [.constant .index (.idx 0) s.nextId,
           .constant .index (.idx 0) (s.nextId + 1),
           .broadcast (.vector [1, 1] et) vreg (s.nextId + 2),
           .transfer_write
             { id := s.nextId + 2, type := .vector [1, 1] et, const := none }
             vbuf
             [{ id := s.nextId, type := .index, const := some (.idx 0) },
              { id := s.nextId + 1, type := .index, const := some (.idx 0) }]
             (AffineMap.get_minor_identity 2 0)] }) := by
  simp [emit_function_call_node, htarget, OP_HANDLERS, handle_write, hargs,
    cast_kernel_buffer, cast_vector, lookup_node_values, hm, hvb, hr, hvr,
    arith_constant, vector_broadcast, vector_transfer_write, emitValue,
    IrType.rank, List.replicate]

/-- Witness for the amended claim C6 at the concrete rank-0 store
`writeScalarNodeF` in `baseState`. -/
theorem rank0_store_broadcast_witness :
    baseState.nodeValues.lookup 1 = some [bufValue] ∧
    baseState.nodeValues.lookup 2 = some [scalarRegValue] ∧
    scalarRegValue.type = .vector [] .f32 ∧
    emit_function_call_node sigF writeScalarNodeF baseState =
      .ok ((), { baseState with
        nextId := baseState.nextId + 3,
        instrs := baseState.instrs ++
          [.constant .index (.idx 0) baseState.nextId,
           .constant .index (.idx 0) (baseState.nextId + 1),
           .broadcast (.vector [1, 1] .f32) scalarRegValue (baseState.nextId + 2),
           .transfer_write
             { id := baseState.nextId + 2, type := .vector [1, 1] .f32, const := none }
             bufValue
             [{ id := baseState.nextId, type := .index, const := some (.idx 0) },
              { id := baseState.nextId + 1, type := .index, const := some (.idx 0) }]
             (AffineMap.get_minor_identity 2 0)] }) := by
  refine ⟨by decide, by decide, rfl, ?_⟩
  exact rank0_store_broadcast sigF writeScalarNodeF baseState 2 1 (.lit 4)
    scalarRegValue bufValue 64 64 IrType.f32 rfl rfl (by decide) rfl (by decide) rfl

/-- Counterexample for claim C6 as stated: at the concrete rank-0 store into
the rank-2 (64, 64) buffer the handler succeeds and the single emitted store
carries the minor-identity permutation map of rank (2 to 0), which is not
the rank (2 to 2) map the claim asserts is computed after the broadcast. -/
theorem rank0_store_map_is_2_to_0 :
    (match handle_write sigF writeScalarNodeF baseState with
      | .ok (_, s) => transferWriteMaps s.instrs
      | .error _ => []) = [AffineMap.get_minor_identity 2 0] ∧
    AffineMap.get_minor_identity 2 0 ≠ AffineMap.get_minor_identity 2 2 := by
  exact ⟨by rfl, by decide⟩

/-- Claim C8: a write node whose destination buffer rank differs from the
number of computed start offsets (this lowering always computes two) raises
a `CodegenError` whose message cites both the expected destination rank and
the actual start-offset count, and emits no store. -/
theorem write_rank_mismatch_rejected (sig : Nat → Value) (node : Node) (s : EmitterState)
    (reg : Arg) (mem : Nat) (ept : Arg) (vbuf : Value) (shape : List Nat) (et : IrType)
    (htarget : node.target = .write)
    (hargs : node.args = [reg, .nodeRef mem, ept])
    (hm : s.nodeValues.lookup mem = some [vbuf])
    (hvb : vbuf.type = .memref shape et)
    (hrank : shape.length ≠ 2) :
    emit_function_call_node sig node s =
      .error (.codegen ("Mismatched slice assignment: Expected rank " ++
          toString shape.length ++ ", got 2"),
        { s with
          nextId := s.nextId + 2,
          instrs := s.instrs ++
            [.constant .index (.idx 0) s.nextId,
             .constant .index (.idx 0) (s.nextId + 1)] }) ∧
    List.filter Instr.isStore (s.instrs ++
        [.constant .index (.idx 0) s.nextId,
         .constant .index (.idx 0) (s.nextId + 1)]) =
      List.filter Instr.isStore s.instrs := by
  constructor
  · have hcat : ", got " ++ "2" = ", got 2" := rfl
    simp [emit_function_call_node, htarget, OP_HANDLERS, handle_write, hargs,
      cast_kernel_buffer, lookup_node_values, hm, hvb, arith_constant,
      emitValue, hrank]
    rw [show toString (2 : Nat) = "2" from rfl, String.append_assoc, hcat]
  · simp [Instr.isStore]

/-- Witness for claim C8 at the concrete rank-3 destination
`writeRank3NodeF` in `baseState`. -/
theorem write_rank_mismatch_rejected_witness :
    buf3Value.type = .memref [8, 8, 8] .f32 ∧
    ([8, 8, 8] : List Nat).length ≠ 2 ∧
    emit_function_call_node sigF writeRank3NodeF baseState =
      .error (.codegen ("Mismatched slice assignment: Expected rank " ++
          toString ([8, 8, 8] : List Nat).length ++ ", got 2"),
        { baseState with
          nextId := baseState.nextId + 2,
          instrs := baseState.instrs ++
            [.constant .index (.idx 0) baseState.nextId,
             .constant .index (.idx 0) (baseState.nextId + 1)] }) := by
  refine ⟨rfl, by decide, ?_⟩
  exact (write_rank_mismatch_rejected sigF writeRank3NodeF baseState (.nodeRef 2) 6
    (.lit 4) buf3Value [8, 8, 8] IrType.f32 rfl rfl (by decide) rfl (by decide)).1

/-- Claim C7 (amended): a read, write or mma node with the wrong number of
positional arguments raises `ValidationError` with the message
`Malformed arguments` before performing any lowering (the emitter state is
unchanged, so nothing was emitted or bound), and a `ValidationError` value
is distinct from every `CodegenError` value; the raised error does not carry
the originating node or operation-kind identifier. -/
theorem malformed_arity_validation (sig : Nat → Value) (node : Node) (s : EmitterState)
    (h : (node.target = .read ∧ node.args.length ≠ 2) ∨
         (node.target = .write ∧ node.args.length ≠ 3) ∨
         (node.target = .mma ∧ node.args.length ≠ 3)) :
    emit_function_call_node sig node s = .error (.validation "Malformed arguments", s) ∧
    (∀ m : String, (Err.validation "Malformed arguments") ≠ .codegen m) := by
  refine ⟨?_, by simp⟩
  rcases h with ⟨ht, hl⟩ | ⟨ht, hl⟩ | ⟨ht, hl⟩ <;>
    simp only [emit_function_call_node, ht, OP_HANDLERS] <;>
    [skip; skip; skip]
  · match hargs : node.args with
    | [] => simp [handle_read, hargs]
    | [a] => simp [handle_read, hargs]
    | [a, b] => exact absurd (by simp [hargs]) hl
    | a :: b :: c :: rest => simp [handle_read, hargs]
  · match hargs : node.args with
    | [] => simp [handle_write, hargs]
    | [a] => simp [handle_write, hargs]
    | [a, b] => simp [handle_write, hargs]
    | [a, b, c] => exact absurd (by simp [hargs]) hl
    | a :: b :: c :: d :: rest => simp [handle_write, hargs]
  · match hargs : node.args with
    | [] => simp [handle_mma, hargs]
    | [a] => simp [handle_mma, hargs]
    | [a, b] => simp [handle_mma, hargs]
    | [a, b, c] => exact absurd (by simp [hargs]) hl
    | a :: b :: c :: d :: rest => simp [handle_mma, hargs]

/-- Witness for the amended claim C7 at the concrete malformed read node
`badReadNodeF`. -/
theorem malformed_arity_validation_witness :
    ((badReadNodeF.target = .read ∧ badReadNodeF.args.length ≠ 2) ∨
      (badReadNodeF.target = .write ∧ badReadNodeF.args.length ≠ 3) ∨
      (badReadNodeF.target = .mma ∧ badReadNodeF.args.length ≠ 3)) ∧
    emit_function_call_node sigF badReadNodeF baseState =
      .error (.validation "Malformed arguments", baseState) :=
  ⟨Or.inl ⟨rfl, by decide⟩,
   (malformed_arity_validation sigF badReadNodeF baseState (Or.inl ⟨rfl, by decide⟩)).1⟩

/-- Counterexample for claim C7 as stated: two malformed nodes with
different ids and different operation kinds raise literally the same error
value, so the raised `ValidationError` does not have the originating node or
operation-kind identifier attached. -/
theorem malformed_arity_error_anonymous :
    emit_function_call_node sigF badReadNodeF baseState =
      .error (.validation "Malformed arguments", baseState) ∧
    emit_function_call_node sigF badMmaNodeF baseState =
      .error (.validation "Malformed arguments", baseState) ∧
    badReadNodeF.id ≠ badMmaNodeF.id ∧
    badReadNodeF.target ≠ badMmaNodeF.target := by
  refine ⟨by rfl, by rfl, by decide, by decide⟩

/-- Claim C4: `emit_subgraph` with a free-variable count different from the
captured-argument count fails with the arity assertion before any
substitution, carrying the entirely unchanged state (in particular the
binding table is unchanged); with equal counts it proceeds to emit the
subgraph from the substituted state, in which the substitution has emitted
no instruction and has bound each free variable positionally to the
already-resolved values of its captured argument. -/
theorem subgraph_capture_arity (sig : Nat → Value) (freevars : List Nat)
    (subgraphNodes : List Node) (implicit_capture : List Nat) (s : EmitterState) :
    (freevars.length ≠ implicit_capture.length →
      emit_subgraph sig freevars subgraphNodes implicit_capture s =
        .error (.assertionFailed
          (subgraphArityMsg freevars.length implicit_capture.length), s)) ∧
    (freevars.length = implicit_capture.length →
      freevars.Nodup →
      (∀ f ∈ freevars, f ∉ implicit_capture) →
      (∀ c ∈ implicit_capture, (s.nodeValues.lookup c).isSome = true) →
      emit_subgraph sig freevars subgraphNodes implicit_capture s =
        emit_graph sig subgraphNodes
          (substituteFreevars sig (freevars.zip implicit_capture) s) ∧
      (substituteFreevars sig (freevars.zip implicit_capture) s).instrs = s.instrs ∧
      ∀ p ∈ freevars.zip implicit_capture,
        (substituteFreevars sig (freevars.zip implicit_capture) s).nodeValues.lookup p.1 =
          s.nodeValues.lookup p.2) := by
  constructor
  · intro hne
    simp [emit_subgraph, hne]
  · intro hlen hnodup hdisjoint hboundc
    have hmapfst : (freevars.zip implicit_capture).map Prod.fst = freevars :=
      List.map_fst_zip _ _ (le_of_eq hlen)
    have hbound : ∀ p ∈ freevars.zip implicit_capture,
        (s.nodeValues.lookup p.2).isSome = true := by
      intro p hp
      exact hboundc p.2 (List.of_mem_zip hp).2
    have hnodup2 : ((freevars.zip implicit_capture).map Prod.fst).Nodup := by
      rw [hmapfst]; exact hnodup
    have hdisj : ∀ p ∈ freevars.zip implicit_capture,
        ∀ q ∈ freevars.zip implicit_capture, p.1 ≠ q.2 := by
      intro p hp q hq heq
      exact hdisjoint p.1 (List.of_mem_zip hp).1 (heq ▸ (List.of_mem_zip hq).2)
    obtain ⟨hinstr, _, hpairs, _⟩ :=
      substituteFreevars_bound sig (freevars.zip implicit_capture) s hbound hnodup2 hdisj
    refine ⟨?_, hinstr, hpairs⟩
    simp [emit_subgraph, hlen]

/-- Witness for claim C4: the arity-mismatch branch at two free variables
against one captured argument, and the equal-arity branch at two fresh free
variables captured from the bound nodes 3 and 4 of `baseState`. -/
theorem subgraph_capture_arity_witness :
    ([1, 2] : List Nat).length ≠ ([3] : List Nat).length ∧
    emit_subgraph sigF [1, 2] [] [3] baseState =
      .error (.assertionFailed (subgraphArityMsg 2 1), baseState) ∧
    (substituteFreevars sigF ([30, 31].zip [3, 4]) baseState).instrs =
      baseState.instrs ∧
    (substituteFreevars sigF ([30, 31].zip [3, 4]) baseState).nodeValues.lookup 30 =
      baseState.nodeValues.lookup 3 := by
  refine ⟨by decide, ?_, ?_, ?_⟩
  · exact (subgraph_capture_arity sigF [1, 2] [] [3] baseState).1 (by decide)
  · exact ((subgraph_capture_arity sigF [30, 31] [] [3, 4] baseState).2
      (by decide) (by decide) (by decide) (by decide)).2.1
  · exact ((subgraph_capture_arity sigF [30, 31] [] [3, 4] baseState).2
      (by decide) (by decide) (by decide) (by decide)).2.2 (30, 3) (by decide)

/-- Claim C9: when the nodes emitted before the first output node succeed
without reaching an output, `emit_graph` stops at that output node and
returns its argument tuple as the graph result, with the state reached just
before it; the nodes after the output node are never traversed — the result
is the same for every suffix, so they are not emitted and raise no error. -/
theorem output_short_circuit (sig : Nat → Value) (pre : List Node) (outNode : Node)
    (post : List Node) (s sq : EmitterState)
    (hout : outNode.op = "output")
    (hpre : emit_graph sig pre s = .ok (none, sq)) :
    emit_graph sig (pre ++ outNode :: post) s = .ok (some outNode.args, sq) := by
  induction pre generalizing s with
  | nil =>
      simp only [emit_graph, Except.ok.injEq, Prod.mk.injEq, true_and] at hpre
      subst hpre
      simp [emit_graph, hout]
  | cons n rest ih =>
      rw [List.cons_append]
      simp only [emit_graph] at hpre ⊢
      cases hcall : (if n.op = "call_function" then emit_function_call_node sig n s
          else .ok ((), s)) with
      | error e =>
          rw [hcall] at hpre
          exact absurd hpre (by simp)
      | ok v =>
          obtain ⟨u, s1⟩ := v
          cases u
          rw [hcall] at hpre
          dsimp only at hpre ⊢
          by_cases hop : n.op = "output"
          · rw [if_pos hop] at hpre
            exact absurd hpre (by simp)
          · rw [if_neg hop] at hpre ⊢
            exact ih s1 hpre

/-- Witness for claim C9: an output node followed by a node whose operation
kind has no handler; emission still returns the output arguments and raises
no error for the node after the output. -/
theorem output_short_circuit_witness :
    outputNodeF.op = "output" ∧
    emit_graph sigF [] baseState = .ok (none, baseState) ∧
    emit_graph sigF ([] ++ outputNodeF :: [unknownNodeF]) baseState =
      .ok (some outputNodeF.args, baseState) :=
  ⟨rfl, rfl,
   output_short_circuit sigF [] outputNodeF [unknownNodeF] baseState baseState rfl rfl⟩

end WaveCodegen
